import Mathlib

/-!
Shallow embedding of the `van-sheet` library core, translated from the
TypeScript sources:

* `src/internal/stack.ts` — the cross-instance stack coordinator
  (participant registry, open-order layering, drag-progress sync);
* `src/create-sheet.ts` — the per-instance sheet state machine
  (open/close, drag gesture handlers, mobile height engine);
* `src/internal/sheet-helpers.ts` — option normalization.

Pixel quantities and drag progress are modelled as rationals (JS numbers in
the source are reals for the values that arise here); `Math.round` is
`round : ℚ → ℤ` (both round half toward positive infinity); DOM side effects
are reified as explicit effect lists.
-/

namespace VanSheet

/-- Dismissal reason enumeration, from `SheetReason` in `src/types.ts`
(`"api" | "backdrop" | "escape" | "drag" | "close-button"`). -/
inductive SheetReason where
  | api
  | backdrop
  | escape
  | drag
  | closeButton
deriving DecidableEq

/-- Value object computed per coordinator pass, from `SheetStackSnapshot` in
`src/internal/stack.ts`. -/
structure SheetStackSnapshot where
  depthFromTop : ℕ
  isTop : Bool
  layer : ℕ
  openCount : ℕ
  visualDepth : ℚ
  stackDragging : Bool
deriving DecidableEq

/-- Projection of a sheet instance registered with the coordinator, from
`SheetStackParticipant` in `src/internal/stack.ts`.  The `isOpen` and
`getOpenOrder` callbacks are modelled by their current values. -/
structure SheetStackParticipant where
  id : ℕ
  isOpen : Bool
  openOrder : ℕ
deriving DecidableEq

/-- Module-level mutable state of `src/internal/stack.ts`: the participant
registry (a `Map`, iterated in insertion order, hence a list with distinct
ids) and the global drag record (`activeStackDragParticipantId`,
`activeStackDragProgress`). -/
structure SheetStackState where
  participants : List SheetStackParticipant
  activeDragId : Option ℕ
  activeDragProgress : ℚ
deriving DecidableEq

/-- Open participants ordered by open-order ascending, from
`getOpenSheetStackParticipants` in `src/internal/stack.ts` (filter on
`isOpen()`, then a stable sort by `getOpenOrder()`). -/
def getOpenSheetStackParticipants (s : SheetStackState) : List SheetStackParticipant :=
  (s.participants.filter (fun p => p.isOpen)).mergeSort
    (fun a b => decide (a.openOrder ≤ b.openOrder))

/-- Last element of the open-order-sorted open participants, from
`getTopOpenSheetStackParticipant` in `src/internal/stack.ts`. -/
def getTopOpenSheetStackParticipant (s : SheetStackState) :
    Option SheetStackParticipant :=
  (getOpenSheetStackParticipants s).getLast?

/-- From `isTopOpenSheetStackParticipant` in `src/internal/stack.ts`:
`getTopOpenSheetStackParticipant()?.id === participantId` (false when there is
no open participant). -/
def isTopOpenSheetStackParticipant (s : SheetStackState) (participantId : ℕ) : Bool :=
  match getTopOpenSheetStackParticipant s with
  | some top => decide (top.id = participantId)
  | none => false

/-- Drag progress actually used by a sync pass, from the
`stackDragProgress` computation in `syncSheetStackState`: the stored
progress when the drag record's owner is the top open participant, else 0. -/
def effectiveStackDragProgress (s : SheetStackState) : ℚ :=
  match getTopOpenSheetStackParticipant s with
  | some top => if s.activeDragId = some top.id then s.activeDragProgress else 0
  | none => 0

/-- Snapshot built for the open participant at position `index` of the
open-order-ascending list, from the first loop of `syncSheetStackState`:
`depthFromTop = openCount - index - 1`, `isTop = depthFromTop === 0`,
`layer = index`, `visualDepth = max(0, depthFromTop - stackDragProgress)`. -/
def stackSnapshotFor (openCount index : ℕ) (progress : ℚ) (dragging : Bool) :
    SheetStackSnapshot :=
  { depthFromTop := openCount - index - 1
    isTop := decide (openCount - index - 1 = 0)
    layer := index
    openCount := openCount
    visualDepth := max 0 ((openCount - index - 1 : ℕ) - progress)
    stackDragging := dragging }

/-- Snapshot invocations of the first loop of `syncSheetStackState()`: every
open participant, in open-order-ascending position, receives its computed
snapshot. -/
def syncOpenEmissions (s : SheetStackState) : List (ℕ × Option SheetStackSnapshot) :=
  (getOpenSheetStackParticipants s).enum.map
    (fun ip => (ip.2.id,
      some (stackSnapshotFor (getOpenSheetStackParticipants s).length ip.1
        (effectiveStackDragProgress s) (decide (0 < effectiveStackDragProgress s)))))

/-- Invocations of the second loop of `syncSheetStackState()`: every
registered participant whose id is not among the open participant ids
receives `null` (modelled as `none`), in registration order. -/
def syncNullEmissions (s : SheetStackState) : List (ℕ × Option SheetStackSnapshot) :=
  (s.participants.filter (fun p =>
      decide (¬ p.id ∈ (getOpenSheetStackParticipants s).map (fun q => q.id)))).map
    (fun p => (p.id, none))

/-- Snapshot-callback invocations of one `syncSheetStackState()` pass, in
call order: the open participants' snapshots first, then `null` for every
remaining registered participant. -/
def syncSheetStackEmissions (s : SheetStackState) :
    List (ℕ × Option SheetStackSnapshot) :=
  syncOpenEmissions s ++ syncNullEmissions s

/-- Mutation performed by `syncSheetStackState()` on the drag record: when the
effective drag progress is 0 the record is force-reset to (no owner, 0). -/
def syncSheetStackReset (s : SheetStackState) : SheetStackState :=
  if effectiveStackDragProgress s = 0 then
    { s with activeDragId := none, activeDragProgress := 0 }
  else s

/-- Full effect of one `syncSheetStackState()` call: the updated coordinator
state and the list of snapshot-callback invocations. -/
def runSheetStackSync (s : SheetStackState) :
    SheetStackState × List (ℕ × Option SheetStackSnapshot) :=
  (syncSheetStackReset s, syncSheetStackEmissions s)

/-- From `setSheetStackDragProgress` in `src/internal/stack.ts`: clamp to
[0,1]; return unchanged (no sync, modelled as `none`) when the (id, progress)
pair equals the current record; otherwise store and run `sync()` (emissions
returned as `some`). -/
def setSheetStackDragProgress (s : SheetStackState) (participantId : ℕ)
    (progress : ℚ) :
    SheetStackState × Option (List (ℕ × Option SheetStackSnapshot)) :=
  let clampedProgress := max 0 (min 1 progress)
  if s.activeDragId = some participantId ∧ s.activeDragProgress = clampedProgress then
    (s, none)
  else
    let s1 : SheetStackState :=
      { s with activeDragId := some participantId, activeDragProgress := clampedProgress }
    ((runSheetStackSync s1).1, some (runSheetStackSync s1).2)

/-- From `clearSheetStackDragProgress` in `src/internal/stack.ts`: no-op when
an id is supplied that differs from the record's owner; no-op when the record
is already (no owner, 0); otherwise reset the record and run `sync()`. -/
def clearSheetStackDragProgress (s : SheetStackState) (participantId? : Option ℕ) :
    SheetStackState × Option (List (ℕ × Option SheetStackSnapshot)) :=
  if participantId?.isSome ∧ s.activeDragId ≠ participantId? then
    (s, none)
  else if s.activeDragId = none ∧ s.activeDragProgress = 0 then
    (s, none)
  else
    let s1 : SheetStackState := { s with activeDragId := none, activeDragProgress := 0 }
    ((runSheetStackSync s1).1, some (runSheetStackSync s1).2)

/-- Constant `DRAG_CLOSE_THRESHOLD_PX = 150` from `src/create-sheet.ts`. -/
def dragCloseThresholdPx : ℚ := 150

/-- Constant `MOBILE_SHEET_HEIGHT_RATIO = 0.95` from `src/create-sheet.ts`. -/
def mobileSheetHeightRatio : ℚ := 95 / 100

/-- Constant `KEYBOARD_CLOSED_EPSILON_PX = 1` from `src/create-sheet.ts`. -/
def keyboardClosedEpsilonPx : ℤ := 1

/-- Per-instance mutable state of one sheet, from the closure-captured
variables of `createSheet` in `src/create-sheet.ts` (the externally owned
`options.isOpen.val` flag, the construction options consumed by the handlers,
and the drag-gesture tracking variables). -/
structure SheetState where
  isOpen : Bool
  pendingReason : SheetReason
  dismissible : Bool
  closeOnBackdrop : Bool
  closeOnEscape : Bool
  stackParticipantId : ℕ
  isTouchTracking : Bool
  isDragging : Bool
  dragStartY : ℚ
  dragOffsetY : ℚ
  dragPanelHeight : ℚ
  activeDragTouchId : Option ℕ
deriving DecidableEq

/-- From `setOpen` in `src/create-sheet.ts`: a close request with a non-`api`
reason on a non-dismissible sheet is refused; a request equal to the current
flag is a no-op; otherwise record the pending reason and flip the flag.  The
returned `Bool` is whether `options.isOpen.val` was mutated (exactly when the
reactive recomputation will later fire `onOpenChange`). -/
def setOpen (s : SheetState) (openFlag : Bool) (reason : SheetReason) :
    SheetState × Bool :=
  if ¬ openFlag ∧ ¬ s.dismissible ∧ reason ≠ .api then (s, false)
  else if openFlag = s.isOpen then (s, false)
  else ({ s with pendingReason := reason, isOpen := openFlag }, true)

/-- Panel transform targets written by the drag handlers in
`src/create-sheet.ts` (`translateY(0px)`, `translateY(100%)`,
`translateY(&lt;offset&gt;px)`). -/
inductive PanelTransform where
  | rest
  | offSurface
  | offsetY (y : ℚ)
deriving DecidableEq

/-- Observable DOM effects issued by the gesture handlers of
`src/create-sheet.ts`, in issue order. -/
inductive SheetEffect where
  | setDraggingVisual (dragging : Bool)
  | animatePanel (t : PanelTransform)
  | setBackdropOpenOpacity (v : ℚ)
  | requestClose (r : SheetReason)
deriving DecidableEq

/-- From `getStackDragProgressDistance` in `src/create-sheet.ts`: the
committed drag panel height when positive, else the measured panel height
when positive, else the `DRAG_CLOSE_THRESHOLD_PX` fallback. -/
def getStackDragProgressDistance (dragPanelHeight measuredPanelHeight : ℚ) : ℚ :=
  if 0 < dragPanelHeight then dragPanelHeight
  else if 0 < measuredPanelHeight then measuredPanelHeight
  else dragCloseThresholdPx

/-- From `handleTouchEnd` in `src/create-sheet.ts`: finish a tracked gesture.
When the gesture had entered the dragging phase, clear the dragging visuals
and the coordinator drag progress, then either commit (offset at or above the
150px threshold: animate off-surface and request close with reason `drag`) or
snap back (restore backdrop opacity 1, animate back to rest); finally zero the
drag bookkeeping. -/
def handleTouchEnd (s : SheetState) (c : SheetStackState) :
    SheetState × SheetStackState × List SheetEffect :=
  if ¬ s.isTouchTracking then (s, c, [])
  else
    let s1 := { s with isTouchTracking := false, activeDragTouchId := none }
    if ¬ s1.isDragging then
      let s2 := { s1 with dragOffsetY := 0, dragStartY := 0, dragPanelHeight := 0 }
      (s2, (clearSheetStackDragProgress c (some s.stackParticipantId)).1, [])
    else
      let s2 := { s1 with isDragging := false }
      let c1 := (clearSheetStackDragProgress c (some s.stackParticipantId)).1
      if dragCloseThresholdPx ≤ s2.dragOffsetY then
        let s3 := (setOpen s2 false .drag).1
        let s4 := { s3 with dragOffsetY := 0, dragStartY := 0, dragPanelHeight := 0 }
        (s4, c1,
          [.setDraggingVisual false, .animatePanel .offSurface, .requestClose .drag])
      else
        let s3 := { s2 with dragOffsetY := 0, dragStartY := 0, dragPanelHeight := 0 }
        (s3, c1,
          [.setDraggingVisual false, .setBackdropOpenOpacity 1, .animatePanel .rest])

/-- Inputs of one `touchstart` event as read by `handleTouchStart` in
`src/create-sheet.ts`.  The DOM queries are modelled by their results:
`targetInteractiveNonBackdrop` is whether `target.closest(...)` found an
interactive ancestor that is not the backdrop; `targetInScrolledScrollable`
is whether `findScrollableAncestor` found an ancestor with `scrollTop > 0`;
`targetInDragBlockZone` is whether the touch began inside an opt-in
drag-blocking zone (built-in `data-vsheet-drag-block` marker or host
`dragStartBlockSelector` match). -/
structure TouchStartEvent where
  touchCount : ℕ
  touchId : ℕ
  clientY : ℚ
  targetInteractiveNonBackdrop : Bool
  targetInScrolledScrollable : Bool
  targetInDragBlockZone : Bool
deriving DecidableEq

/-- From `handleTouchStart` in `src/create-sheet.ts`: begin touch tracking
only on the top-most open mobile sheet, for a single-finger gesture whose
target is neither an interactive control nor inside a scrolled-down
scrollable ancestor.  The `targetInDragBlockZone` guard is Modelled from the
spec: the opt-in drag-blocking zones (the built-in `data-vsheet-drag-block`
marker and the host-supplied `dragStartBlockSelector` option) are documented
in the package README but their implementation is not present under `src/`;
per the spec such a gesture must prevent the drag state machine from
starting at all. -/
def handleTouchStart (s : SheetState) (c : SheetStackState) (mobileViewport : Bool)
    (ev : TouchStartEvent) (measuredPanelHeight : ℚ) :
    SheetState × SheetStackState :=
  if ¬ (s.isOpen ∧ mobileViewport ∧ isTopOpenSheetStackParticipant c s.stackParticipantId) then
    (s, c)
  else if ev.touchCount ≠ 1 then (s, c)
  else if ev.targetInteractiveNonBackdrop then (s, c)
  else if ev.targetInScrolledScrollable then (s, c)
  else if ev.targetInDragBlockZone then (s, c)
  else
    ({ s with
        isTouchTracking := true
        activeDragTouchId := some ev.touchId
        dragStartY := ev.clientY
        dragOffsetY := 0
        dragPanelHeight := measuredPanelHeight
        isDragging := false },
      (clearSheetStackDragProgress c (some s.stackParticipantId)).1)

/-- Key of a keyboard event, as tested by `handleEscape`. -/
inductive KeyInput where
  | escape
  | other
deriving DecidableEq

/-- From `isTopMostOpenSheet` in `src/create-sheet.ts`:
`options.isOpen.val && isTopOpenSheetStackParticipant(stackParticipantId)`. -/
def isTopMostOpenSheet (s : SheetState) (c : SheetStackState) : Bool :=
  s.isOpen && isTopOpenSheetStackParticipant c s.stackParticipantId

/-- From `handleBackdropClick` in `src/create-sheet.ts`: only the top-most
open sheet reacts, and only when `closeOnBackdrop`; then requests close with
reason `backdrop`. -/
def handleBackdropClick (s : SheetState) (c : SheetStackState) : SheetState × Bool :=
  if ¬ isTopMostOpenSheet s c then (s, false)
  else if ¬ s.closeOnBackdrop then (s, false)
  else setOpen s false .backdrop

/-- From `handleCloseButtonClick` in `src/create-sheet.ts`: unconditionally
requests close with reason `close-button`. -/
def handleCloseButtonClick (s : SheetState) : SheetState × Bool :=
  setOpen s false .closeButton

/-- From `handleEscape` in `src/create-sheet.ts`: ignore non-Escape keys;
react only when `closeOnEscape` and top-most open; then request close with
reason `escape`. -/
def handleEscape (s : SheetState) (c : SheetStackState) (key : KeyInput) :
    SheetState × Bool :=
  if key ≠ .escape then (s, false)
  else if ¬ s.closeOnEscape ∨ ¬ isTopMostOpenSheet s c then (s, false)
  else setOpen s false .escape

/-- Section description, from `SheetSection` in `src/types.ts` (`content` is
abstracted to an opaque string tag; an omitted `scroll` flag is falsy). -/
structure SheetSectionModel where
  content : String
  scroll : Bool
deriving DecidableEq

/-- Construction options relevant to option normalization, from
`SheetOptions` in `src/types.ts`. -/
structure SheetOptionsModel where
  content : Option String
  sections : Option (List SheetSectionModel)
deriving DecidableEq

/-- Error message of `normalizeSections` when both forms are supplied. -/
def errBothContentAndSections : String :=
  "createSheet: provide either content or sections, not both."

/-- Error message of `normalizeSections` when neither form is supplied. -/
def errNeitherContentNorSections : String :=
  "createSheet: provide content or sections."

/-- Error message of `normalizeSections` for a wrong scroll-section count. -/
def errScrollSectionCount : String :=
  "createSheet: sections must include exactly one section with scroll true."

/-- Error message of `createSheet` when no scroll section resolves. -/
def errNoScrollSection : String :=
  "createSheet: unable to resolve a scroll section from sections."

/-- From `normalizeSections` in `src/internal/sheet-helpers.ts`: reject both
or neither of `content`/`sections`; wrap lone `content` as a single
scroll-flagged section; reject a `sections` list whose scroll-flagged count
differs from one. -/
def normalizeSections (options : SheetOptionsModel) :
    Except String (List SheetSectionModel) :=
  let hasContent := options.content.isSome
  let hasSections := options.sections.isSome
  if hasContent ∧ hasSections then .error errBothContentAndSections
  else if ¬ hasContent ∧ ¬ hasSections then .error errNeitherContentNorSections
  else
    match options.content with
    | some c => .ok [{ content := c, scroll := true }]
    | none =>
      let sections := options.sections.getD []
      let scrollSectionCount := (sections.filter (fun sec => sec.scroll)).length
      if scrollSectionCount ≠ 1 then .error errScrollSectionCount
      else .ok sections

/-- Observable phases of `createSheet`'s construction sequence in
`src/create-sheet.ts`: building the detached DOM (lines 43-104) and attaching
the root surface to the mount target (`resolveMountTarget(...).append(root)`,
line 105). -/
inductive ConstructStep where
  | buildDom
  | attachSurface
deriving DecidableEq

/-- Construction prefix of `createSheet` in `src/create-sheet.ts`:
`normalizeSections` runs first (before any DOM exists); on success the
detached DOM is built and the scroll section is resolved
(`querySelector("[data-vsheet-scroll=true]")`, throwing when absent); only
after that is the root attached to the mount target.  Returns the steps that
actually executed together with the thrown error or the normalized
sections. -/
def createSheetConstruct (options : SheetOptionsModel) :
    List ConstructStep × Except String (List SheetSectionModel) :=
  match normalizeSections options with
  | .error e => ([], .error e)
  | .ok resolvedSections =>
    if (resolvedSections.filter (fun sec => sec.scroll)).length = 0 then
      ([.buildDom], .error errNoScrollSection)
    else
      ([.buildDom, .attachSurface], .ok resolvedSections)

/-- Invalid content/section configuration, written from the claim's words
(for comparison with the code's behaviour): both `content` and `sections`
provided, neither provided, or a `sections` list whose number of
scroll-flagged sections differs from exactly one. -/
def specInvalidSheetConfig (options : SheetOptionsModel) : Prop :=
  (options.content.isSome ∧ options.sections.isSome) ∨
  (options.content.isNone ∧ options.sections.isNone) ∨
  (options.content.isNone ∧
    ((options.sections.getD []).filter (fun sec => sec.scroll)).length ≠ 1)

instance (options : SheetOptionsModel) : Decidable (specInvalidSheetConfig options) := by
  unfold specInvalidSheetConfig; infer_instance

/-- Visible viewport signals read from `window.visualViewport`
(`height`, `offsetTop`). -/
structure ViewportModel where
  height : ℚ
  offsetTop : ℚ
deriving DecidableEq

/-- From `getDetectedKeyboardHeight` in `src/create-sheet.ts`: 0 without a
visual viewport; else `max(0, round(base - (height + offsetTop)))`, zeroed
when at most the 1px `KEYBOARD_CLOSED_EPSILON_PX`. -/
def getDetectedKeyboardHeight (viewport? : Option ViewportModel)
    (baseMobileViewportHeight : ℚ) : ℤ :=
  match viewport? with
  | none => 0
  | some viewport =>
    let visibleViewportBottom := viewport.height + viewport.offsetTop
    let keyboardHeight :=
      max 0 (round (baseMobileViewportHeight - visibleViewportBottom))
    if keyboardHeight ≤ keyboardClosedEpsilonPx then 0 else keyboardHeight

/-- From `getViewportOffsetTop` in `src/create-sheet.ts`:
`max(0, round(viewport.offsetTop))`, 0 without a visual viewport. -/
def getViewportOffsetTop (viewport? : Option ViewportModel) : ℤ :=
  match viewport? with
  | none => 0
  | some viewport => max 0 (round viewport.offsetTop)

/-- Style values written by one `updateMobileOpenHeight` pass in
`src/create-sheet.ts` (`--vsheet-mobile-height`, `--vsheet-keyboard-height`,
`--vsheet-root-offset-y`, `panel.style.bottom`, the `keyboardOpen` flag). -/
structure MobileHeightUpdate where
  mobileHeight : ℤ
  keyboardHeight : ℤ
  rootOffsetY : ℤ
  panelBottom : ℤ
  keyboardOpen : Bool
deriving DecidableEq

/-- From `updateMobileOpenHeight` in `src/create-sheet.ts`: no-op unless open
on a mobile viewport; capture the base viewport height lazily and only let it
grow; detect the keyboard height; target height is
`max(0, round(base * 0.95) - keyboardHeight)`, additionally capped by the
natural panel height when adjustable tracking is ready.  Returns the updated
base height and the applied style values. -/
def updateMobileOpenHeight (isOpenVal mobileViewport : Bool)
    (baseMobileViewportHeight layoutViewportHeight : ℚ)
    (viewport? : Option ViewportModel) (adjustableHeight adjustableTrackingReady : Bool)
    (naturalPanelHeight : ℤ) : Option (ℚ × MobileHeightUpdate) :=
  if ¬ (isOpenVal ∧ mobileViewport) then none
  else
    let base1 :=
      if baseMobileViewportHeight = 0 then layoutViewportHeight
      else baseMobileViewportHeight
    let base2 := if base1 < layoutViewportHeight then layoutViewportHeight else base1
    let keyboardHeight := getDetectedKeyboardHeight viewport? base2
    let viewportOffsetTop :=
      if 0 < keyboardHeight then getViewportOffsetTop viewport? else 0
    let basePanelHeight := round (base2 * mobileSheetHeightRatio)
    let maxPanelHeight := max 0 (basePanelHeight - keyboardHeight)
    let panelHeight :=
      if adjustableHeight ∧ adjustableTrackingReady then
        min maxPanelHeight naturalPanelHeight
      else maxPanelHeight
    some (base2,
      { mobileHeight := panelHeight
        keyboardHeight := keyboardHeight
        rootOffsetY := viewportOffsetTop
        panelBottom := keyboardHeight + viewportOffsetTop
        keyboardOpen := decide (0 < keyboardHeight) })

/-- Inline style properties of the scrollable region saved and restored by
`measureNaturalScrollSectionHeight` in `src/create-sheet.ts`. -/
structure ScrollStyleRec where
  width : String
  flex : String
  height : String
  maxHeight : String
  minHeight : String
  overflowY : String
deriving DecidableEq

/-- Scrollable region as observed by the natural-height probe: its current
inline styles, its scroll-extent as a function of the inline styles (layout
responds to the temporary relaxation), and its client extent. -/
structure ScrollContentModel where
  styles : ScrollStyleRec
  scrollHeightAt : ScrollStyleRec → ℚ
  clientHeight : ℚ

/-- From `measureNaturalScrollSectionHeight` in `src/create-sheet.ts`: when
the live scroll-extent already exceeds the client extent, return it without
touching any style (third component `false`); otherwise save the six inline
sizing properties, apply the relaxed sizing, read the unconstrained
scroll-extent, and restore each saved property.  Returns the measured height,
the final inline styles, and whether styles were written. -/
def measureNaturalScrollSectionHeight (el : ScrollContentModel)
    (contentWidth : ℤ) : ℤ × ScrollStyleRec × Bool :=
  let liveScrollHeight := max 0 (round (el.scrollHeightAt el.styles))
  let liveClientHeight := max 0 (round el.clientHeight)
  if liveClientHeight < liveScrollHeight then
    (liveScrollHeight, el.styles, false)
  else
    let previousWidth := el.styles.width
    let previousFlex := el.styles.flex
    let previousHeight := el.styles.height
    let previousMaxHeight := el.styles.maxHeight
    let previousMinHeight := el.styles.minHeight
    let previousOverflowY := el.styles.overflowY
    let relaxed : ScrollStyleRec :=
      { width :=
          if 0 < contentWidth then toString contentWidth ++ "px" else el.styles.width
        flex := "0 0 auto"
        height := "auto"
        maxHeight := "none"
        minHeight := "0"
        overflowY := "visible" }
    let naturalHeight := max 0 (round (el.scrollHeightAt relaxed))
    let restored : ScrollStyleRec :=
      { width := previousWidth
        flex := previousFlex
        height := previousHeight
        maxHeight := previousMaxHeight
        minHeight := previousMinHeight
        overflowY := previousOverflowY }
    (naturalHeight, restored, true)

/-! ## Helper lemmas -/

/-- Helper: clearing drag progress with the owning participant's id (or with
no conflicting owner recorded) leaves the coordinator's drag record at
(no owner, 0). -/
theorem clearDrag_record_cleared (c : SheetStackState) (pid : ℕ)
    (howner : ∀ q, c.activeDragId = some q → q = pid)
    (hnone : c.activeDragId = none → c.activeDragProgress = 0) :
    (clearSheetStackDragProgress c (some pid)).1.activeDragId = none ∧
    (clearSheetStackDragProgress c (some pid)).1.activeDragProgress = 0 := by
  unfold clearSheetStackDragProgress
  cases hid : c.activeDragId with
  | none =>
    have hp := hnone hid
    simp [hid, hp]
  | some q =>
    have hq := howner q hid
    subst hq
    simp [hid, runSheetStackSync, syncSheetStackReset, effectiveStackDragProgress]

/-- Helper: with no recorded drag owner the effective drag progress of a sync
pass is 0, whatever the participant registry holds. -/
theorem effective_progress_of_no_owner (st : SheetStackState)
    (h : st.activeDragId = none) : effectiveStackDragProgress st = 0 := by
  unfold effectiveStackDragProgress
  cases htop : getTopOpenSheetStackParticipant st with
  | none => rfl
  | some top => simp [h]

/-! ## Claim theorems -/

/-- Claim C7: for a sheet constructed with `dismissible: false`, a close
request with any reason other than `api` leaves the state untouched and
reports no flag mutation (so no `onOpenChange` fires), while a close request
with reason `api` still closes the sheet. -/
theorem c7_non_dismissible_close (s : SheetState) (reason : SheetReason)
    (hnd : s.dismissible = false) :
    (reason ≠ .api → setOpen s false reason = (s, false)) ∧
    (s.isOpen = true →
      setOpen s false .api = ({ s with pendingReason := .api, isOpen := false }, true)) := by
  constructor
  · intro hr
    unfold setOpen
    simp [hnd, hr]
  · intro ho
    unfold setOpen
    simp [hnd, ho]

/-- Witness for C7 at a concrete non-dismissible open sheet. -/
theorem c7_non_dismissible_close_witness :
    setOpen ⟨true, .api, false, true, true, 7, false, false, 0, 0, 0, none⟩ false .backdrop
      = (⟨true, .api, false, true, true, 7, false, false, 0, 0, 0, none⟩, false) ∧
    setOpen ⟨true, .api, false, true, true, 7, false, false, 0, 0, 0, none⟩ false .api
      = (⟨false, .api, false, true, true, 7, false, false, 0, 0, 0, none⟩, true) := by
  have h := c7_non_dismissible_close
    ⟨true, .api, false, true, true, 7, false, false, 0, 0, 0, none⟩ .backdrop rfl
  exact ⟨h.1 (by decide), h.2 rfl⟩

/-- Claim C2: releasing a drag on the top-most open sheet with accumulated
offset at or above the 150px threshold emits the commit sequence (dragging
visual off, panel animated off-surface, close requested with reason `drag`);
below the threshold the sheet stays open and the snap-back sequence restores
backdrop opacity 1 and animates the panel to rest; in both cases the
coordinator's drag record is cleared and the tracking/dragging flags are
cleared. -/
theorem c2_touch_end_release (s : SheetState) (c : SheetStackState)
    (htrack : s.isTouchTracking = true) (hdrag : s.isDragging = true)
    (hopen : s.isOpen = true)
    (howner : ∀ q, c.activeDragId = some q → q = s.stackParticipantId)
    (hnone : c.activeDragId = none → c.activeDragProgress = 0) :
    ((handleTouchEnd s c).2.1.activeDragId = none ∧
      (handleTouchEnd s c).2.1.activeDragProgress = 0) ∧
    (handleTouchEnd s c).1.isDragging = false ∧
    (handleTouchEnd s c).1.isTouchTracking = false ∧
    (dragCloseThresholdPx ≤ s.dragOffsetY →
      (handleTouchEnd s c).2.2 =
        [.setDraggingVisual false, .animatePanel .offSurface, .requestClose .drag]) ∧
    (s.dragOffsetY < dragCloseThresholdPx →
      (handleTouchEnd s c).1.isOpen = true ∧
      (handleTouchEnd s c).2.2 =
        [.setDraggingVisual false, .setBackdropOpenOpacity 1, .animatePanel .rest]) := by
  have hclear := clearDrag_record_cleared c s.stackParticipantId howner hnone
  have hA : (handleTouchEnd s c).2.1 =
      (clearSheetStackDragProgress c (some s.stackParticipantId)).1 := by
    unfold handleTouchEnd
    simp [htrack, hdrag]
    split <;> rfl
  by_cases hthr : dragCloseThresholdPx ≤ s.dragOffsetY
  · have heff : (handleTouchEnd s c).2.2 =
        [.setDraggingVisual false, .animatePanel .offSurface, .requestClose .drag] := by
      unfold handleTouchEnd
      simp [htrack, hdrag, hthr]
    have hflags : (handleTouchEnd s c).1.isDragging = false ∧
        (handleTouchEnd s c).1.isTouchTracking = false := by
      unfold handleTouchEnd
      cases hd : s.dismissible <;> simp [htrack, hdrag, hthr, setOpen, hd, hopen]
    exact ⟨by rw [hA]; exact hclear, hflags.1, hflags.2, fun _ => heff,
      fun hlt => absurd hthr (not_le.mpr hlt)⟩
  · have heq : handleTouchEnd s c =
        ({ s with
            isTouchTracking := false
            activeDragTouchId := none
            isDragging := false
            dragOffsetY := 0
            dragStartY := 0
            dragPanelHeight := 0 },
          (clearSheetStackDragProgress c (some s.stackParticipantId)).1,
          [.setDraggingVisual false, .setBackdropOpenOpacity 1, .animatePanel .rest]) := by
      unfold handleTouchEnd
      simp [htrack, hdrag, hthr]
    rw [heq]
    exact ⟨hclear, rfl, rfl, fun hge => absurd hge hthr, fun _ => ⟨hopen, rfl⟩⟩

/-- Witness for C2 at a concrete dragging sheet (offset 200 ≥ 150) whose drag
record is owned by the same participant. -/
theorem c2_touch_end_release_witness :
    (handleTouchEnd ⟨true, .api, true, true, true, 7, true, true, 10, 200, 300, some 1⟩
        ⟨[⟨7, true, 1⟩], some 7, 2/3⟩).2.1.activeDragId = none ∧
    (handleTouchEnd ⟨true, .api, true, true, true, 7, true, true, 10, 200, 300, some 1⟩
        ⟨[⟨7, true, 1⟩], some 7, 2/3⟩).2.2 =
      [.setDraggingVisual false, .animatePanel .offSurface, .requestClose .drag] := by
  have h := c2_touch_end_release
    ⟨true, .api, true, true, true, 7, true, true, 10, 200, 300, some 1⟩
    ⟨[⟨7, true, 1⟩], some 7, 2/3⟩ rfl rfl rfl
    (fun q hq => (Option.some.inj hq).symm) (fun hq => by cases hq)
  exact ⟨h.1.1, h.2.2.2.1 (by norm_num [dragCloseThresholdPx])⟩

/-- Claim C4: a touch gesture that begins inside an opt-in drag-blocking
zone, or arrives while the gesture is not single-finger (an additional
finger during an active drag), never starts the drag state machine: the
instance state and the coordinator are left exactly unchanged. -/
theorem c4_drag_block_and_multitouch (s : SheetState) (c : SheetStackState)
    (mobileViewport : Bool) (ev : TouchStartEvent) (measuredPanelHeight : ℚ)
    (hblock : ev.targetInDragBlockZone = true ∨ ev.touchCount ≠ 1) :
    handleTouchStart s c mobileViewport ev measuredPanelHeight = (s, c) := by
  unfold handleTouchStart
  by_cases hguard :
      ¬ (s.isOpen ∧ mobileViewport ∧ isTopOpenSheetStackParticipant c s.stackParticipantId)
  · simp [hguard]
  · by_cases hcount : ev.touchCount ≠ 1
    · simp [hguard, hcount]
    · have hzone : ev.targetInDragBlockZone = true := hblock.resolve_right hcount
      by_cases hint : ev.targetInteractiveNonBackdrop
      · simp [hguard, hcount, hint]
      · by_cases hscroll : ev.targetInScrolledScrollable
        · simp [hguard, hcount, hint, hscroll]
        · simp [hguard, hcount, hint, hscroll, hzone]

/-- Witness for C4 at a concrete gesture inside a drag-blocking zone (and a
two-finger variant) on a top-most open mobile sheet. -/
theorem c4_drag_block_and_multitouch_witness :
    handleTouchStart ⟨true, .api, true, true, true, 7, false, false, 0, 0, 0, none⟩
        ⟨[⟨7, true, 1⟩], none, 0⟩ true ⟨1, 1, 50, false, false, true⟩ 300 =
      (⟨true, .api, true, true, true, 7, false, false, 0, 0, 0, none⟩,
        ⟨[⟨7, true, 1⟩], none, 0⟩) ∧
    handleTouchStart ⟨true, .api, true, true, true, 7, true, true, 0, 40, 300, some 1⟩
        ⟨[⟨7, true, 1⟩], some 7, 1/5⟩ true ⟨2, 2, 80, false, false, false⟩ 300 =
      (⟨true, .api, true, true, true, 7, true, true, 0, 40, 300, some 1⟩,
        ⟨[⟨7, true, 1⟩], some 7, 1/5⟩) := by
  exact ⟨c4_drag_block_and_multitouch _ _ _ _ _ (Or.inl rfl),
    c4_drag_block_and_multitouch _ _ _ _ _ (Or.inr (by decide))⟩

/-- Claim C3: construction throws exactly on an invalid content/section
configuration (both `content` and `sections` provided, neither provided, or a
scroll-flagged section count different from one); whenever it throws, the
surface-attach step has not executed; and every successful construction
yields exactly one scroll-flagged section after normalization. -/
theorem c3_construction_validation (options : SheetOptionsModel) :
    ((createSheetConstruct options).2.isOk = false ↔ specInvalidSheetConfig options) ∧
    ((createSheetConstruct options).2.isOk = false →
      ConstructStep.attachSurface ∉ (createSheetConstruct options).1) ∧
    (∀ secs, (createSheetConstruct options).2 = Except.ok secs →
      (secs.filter (fun sec => sec.scroll)).length = 1) := by
  obtain ⟨content, sections⟩ := options
  cases content with
  | some ctext =>
    cases sections with
    | some ss =>
      simp [createSheetConstruct, normalizeSections, specInvalidSheetConfig, Except.isOk, Except.toBool]
    | none =>
      simp [createSheetConstruct, normalizeSections, specInvalidSheetConfig, Except.isOk, Except.toBool]
  | none =>
    cases sections with
    | none =>
      simp [createSheetConstruct, normalizeSections, specInvalidSheetConfig, Except.isOk, Except.toBool]
    | some ss =>
      by_cases hcount : (ss.filter (fun sec => sec.scroll)).length = 1
      · simp [createSheetConstruct, normalizeSections, specInvalidSheetConfig,
          Except.isOk, Except.toBool, hcount]
      · simp [createSheetConstruct, normalizeSections, specInvalidSheetConfig,
          Except.isOk, Except.toBool, hcount]

/-- Witness for C3: an invalid configuration (both forms provided) throws
without attaching, and a valid two-section configuration normalizes to
exactly one scroll-flagged section. -/
theorem c3_construction_validation_witness :
    (createSheetConstruct ⟨some "c", some []⟩).2.isOk = false ∧
    ConstructStep.attachSurface ∉ (createSheetConstruct ⟨some "c", some []⟩).1 ∧
    (([⟨"a", false⟩, ⟨"b", true⟩] : List SheetSectionModel).filter
      (fun sec => sec.scroll)).length = 1 := by
  refine ⟨(c3_construction_validation ⟨some "c", some []⟩).1.mpr (by decide),
    (c3_construction_validation ⟨some "c", some []⟩).2.1 (by decide),
    (c3_construction_validation ⟨none, some [⟨"a", false⟩, ⟨"b", true⟩]⟩).2.2 _ rfl⟩

/-- Claim C5: on an open mobile sheet with an already-captured base viewport
height, the detected keyboard height is
`max(0, round(base - (visibleHeight + visibleOffset)))` zeroed when at most
the 1px epsilon, and the target panel height is
`max(0, round(base * 0.95) - keyboardHeight)`, further capped by the natural
content height when adjustable tracking is ready; concretely, base 1000 with
visible height 700 at offset 0 gives keyboard height 300 and target 650. -/
theorem c5_keyboard_and_target_height (base layout : ℚ) (v : ViewportModel)
    (adjustable ready : Bool) (natural : ℤ)
    (hbase : base ≠ 0) (hlay : layout ≤ base) :
    (let kh : ℤ :=
        if max 0 (round (base - (v.height + v.offsetTop))) ≤ 1 then 0
        else max 0 (round (base - (v.height + v.offsetTop)));
      let voff : ℤ := if 0 < kh then max 0 (round v.offsetTop) else 0;
      let maxPanel : ℤ := max 0 (round (base * (95 / 100)) - kh);
      updateMobileOpenHeight true true base layout (some v) adjustable ready natural =
        some (base,
          { mobileHeight := if adjustable ∧ ready then min maxPanel natural else maxPanel
            keyboardHeight := kh
            rootOffsetY := voff
            panelBottom := kh + voff
            keyboardOpen := decide (0 < kh) })) ∧
    updateMobileOpenHeight true true 1000 1000 (some ⟨700, 0⟩) false false 0 =
      some (1000, ⟨650, 300, 0, 300, true⟩) := by
  constructor
  · have h0 : ¬ (base = 0) := hbase
    have h1 : ¬ (base < layout) := not_lt.mpr hlay
    simp [updateMobileOpenHeight, getDetectedKeyboardHeight, getViewportOffsetTop,
      mobileSheetHeightRatio, keyboardClosedEpsilonPx, h0, h1]
  · norm_num [updateMobileOpenHeight, getDetectedKeyboardHeight, getViewportOffsetTop,
      mobileSheetHeightRatio, keyboardClosedEpsilonPx, round_eq]

/-- Witness for C5: the concrete keyboard scenario of the claim, derived from
the theorem at base 1000. -/
theorem c5_keyboard_and_target_height_witness :
    updateMobileOpenHeight true true 1000 1000 (some ⟨700, 0⟩) false false 0 =
      some (1000, ⟨650, 300, 0, 300, true⟩) :=
  (c5_keyboard_and_target_height 1000 1000 ⟨700, 0⟩ false false 0
    (by norm_num) (by norm_num)).2

/-- Claim C6: `setSheetStackDragProgress` keeps the stored progress within
[0,1] and is a complete no-op (state unchanged, no sync) when the clamped
(id, progress) pair equals the current record; in the A,B,C stack scenario
where C's drag distance is the 150px fallback, a 75px drag stores progress
1/2 and the triggered sync hands B (depth-from-top 1) visual depth
`max(0, 1 - 1/2) = 1/2`. -/
theorem c6_set_drag_progress (s : SheetStackState) (pid : ℕ) (progress : ℚ) :
    (0 ≤ (setSheetStackDragProgress s pid progress).1.activeDragProgress ∧
      (setSheetStackDragProgress s pid progress).1.activeDragProgress ≤ 1) ∧
    (s.activeDragId = some pid → s.activeDragProgress = max 0 (min 1 progress) →
      setSheetStackDragProgress s pid progress = (s, none)) ∧
    getStackDragProgressDistance 0 0 = dragCloseThresholdPx ∧
    (setSheetStackDragProgress ⟨[⟨1, true, 1⟩, ⟨2, true, 2⟩, ⟨3, true, 3⟩], none, 0⟩ 3
        ((75 : ℚ) / getStackDragProgressDistance 0 0)).1.activeDragProgress = 1 / 2 ∧
    (setSheetStackDragProgress ⟨[⟨1, true, 1⟩, ⟨2, true, 2⟩, ⟨3, true, 3⟩], none, 0⟩ 3
        ((75 : ℚ) / getStackDragProgressDistance 0 0)).2.isSome = true ∧
    (2, some ⟨1, false, 1, 3, 1 / 2, true⟩) ∈
      (setSheetStackDragProgress ⟨[⟨1, true, 1⟩, ⟨2, true, 2⟩, ⟨3, true, 3⟩], none, 0⟩ 3
        ((75 : ℚ) / getStackDragProgressDistance 0 0)).2.getD [] := by
  have hdist : getStackDragProgressDistance 0 0 = dragCloseThresholdPx := by
    norm_num [getStackDragProgressDistance]
  have hcl : max 0 (min 1 ((75 : ℚ) / getStackDragProgressDistance 0 0)) = 1 / 2 := by
    rw [hdist]
    norm_num [dragCloseThresholdPx]
  have hopen1 : getOpenSheetStackParticipants
      ⟨[⟨1, true, 1⟩, ⟨2, true, 2⟩, ⟨3, true, 3⟩], some 3, 1 / 2⟩ =
      [⟨1, true, 1⟩, ⟨2, true, 2⟩, ⟨3, true, 3⟩] := by
    unfold getOpenSheetStackParticipants
    exact List.mergeSort_of_sorted (by decide)
  have heff : effectiveStackDragProgress
      ⟨[⟨1, true, 1⟩, ⟨2, true, 2⟩, ⟨3, true, 3⟩], some 3, 1 / 2⟩ = 1 / 2 := by
    unfold effectiveStackDragProgress getTopOpenSheetStackParticipant
    rw [hopen1]
    simp
  have hset : setSheetStackDragProgress ⟨[⟨1, true, 1⟩, ⟨2, true, 2⟩, ⟨3, true, 3⟩], none, 0⟩ 3
      ((75 : ℚ) / getStackDragProgressDistance 0 0) =
      ((runSheetStackSync ⟨[⟨1, true, 1⟩, ⟨2, true, 2⟩, ⟨3, true, 3⟩], some 3, 1 / 2⟩).1,
        some (runSheetStackSync
          ⟨[⟨1, true, 1⟩, ⟨2, true, 2⟩, ⟨3, true, 3⟩], some 3, 1 / 2⟩).2) := by
    unfold setSheetStackDragProgress
    rw [hcl]
    simp
  have hsync1 : (runSheetStackSync
      ⟨[⟨1, true, 1⟩, ⟨2, true, 2⟩, ⟨3, true, 3⟩], some 3, 1 / 2⟩).1 =
      ⟨[⟨1, true, 1⟩, ⟨2, true, 2⟩, ⟨3, true, 3⟩], some 3, 1 / 2⟩ := by
    unfold runSheetStackSync syncSheetStackReset
    rw [heff]
    norm_num
  have hsnapB : stackSnapshotFor 3 1 (1 / 2) true = ⟨1, false, 1, 3, 1 / 2, true⟩ := by
    unfold stackSnapshotFor
    norm_num
  have hdragB : decide ((0 : ℚ) < 1 / 2) = true := by norm_num
  have hmemB : (2, some (⟨1, false, 1, 3, 1 / 2, true⟩ : SheetStackSnapshot)) ∈
      (runSheetStackSync ⟨[⟨1, true, 1⟩, ⟨2, true, 2⟩, ⟨3, true, 3⟩], some 3, 1 / 2⟩).2 := by
    unfold runSheetStackSync
    show _ ∈ syncSheetStackEmissions _
    simp only [syncSheetStackEmissions, syncOpenEmissions, syncNullEmissions,
      hopen1, heff, hdragB]
    refine List.mem_append_left _ ?_
    rw [← hsnapB]
    exact List.mem_map.mpr ⟨(1, ⟨2, true, 2⟩), by decide, rfl⟩
  refine ⟨?_, ?_, hdist, by rw [hset, hsync1], by rw [hset]; rfl, by rw [hset]; simpa using hmemB⟩
  · unfold setSheetStackDragProgress
    dsimp only
    split
    · rename_i h
      rw [h.2]
      exact ⟨le_max_left 0 _, max_le (by norm_num) (min_le_left 1 progress)⟩
    · unfold runSheetStackSync syncSheetStackReset
      dsimp only
      split
      · exact ⟨le_rfl, by norm_num⟩
      · exact ⟨le_max_left 0 _, max_le (by norm_num) (min_le_left 1 progress)⟩
  · intro h1 h2
    unfold setSheetStackDragProgress
    rw [if_pos ⟨h1, h2⟩]

/-- Witness for C6 at a concrete record already holding the clamped pair. -/
theorem c6_set_drag_progress_witness :
    setSheetStackDragProgress ⟨[], some 4, 1 / 2⟩ 4 (1 / 2) = (⟨[], some 4, 1 / 2⟩, none) :=
  (c6_set_drag_progress ⟨[], some 4, 1 / 2⟩ 4 (1 / 2)).2.1 rfl (by norm_num)

/-- Claim C8: `clearSheetStackDragProgress` resets the global drag record to
(no owner, 0) exactly when the id is unset or equals the current owner, is a
no-op otherwise, triggers a sync only when the record actually changed, and
once cleared the effective drag progress is 0 for any later registry (so a
subsequently opened instance inherits zero progress). -/
theorem c8_clear_drag_progress (s : SheetStackState) (pid? : Option ℕ) :
    ((pid? = none ∨ pid? = s.activeDragId) →
      (clearSheetStackDragProgress s pid?).1.activeDragId = none ∧
      (clearSheetStackDragProgress s pid?).1.activeDragProgress = 0) ∧
    (pid? ≠ none → pid? ≠ s.activeDragId →
      clearSheetStackDragProgress s pid? = (s, none)) ∧
    ((clearSheetStackDragProgress s pid?).2.isSome = true →
      (s.activeDragId ≠ none ∨ s.activeDragProgress ≠ 0) ∧
      (clearSheetStackDragProgress s pid?).1.activeDragId = none ∧
      (clearSheetStackDragProgress s pid?).1.activeDragProgress = 0) ∧
    ((pid? = none ∨ pid? = s.activeDragId) → ∀ ps : List SheetStackParticipant,
      effectiveStackDragProgress
        ⟨ps, (clearSheetStackDragProgress s pid?).1.activeDragId,
          (clearSheetStackDragProgress s pid?).1.activeDragProgress⟩ = 0) := by
  by_cases h1 : pid?.isSome ∧ s.activeDragId ≠ pid?
  · have heq : clearSheetStackDragProgress s pid? = (s, none) := by
      unfold clearSheetStackDragProgress
      rw [if_pos h1]
    have hcase : ¬ (pid? = none ∨ pid? = s.activeDragId) := by
      rintro (hn | he)
      · rw [hn] at h1
        exact absurd h1.1 (by simp)
      · exact h1.2 he.symm
    rw [heq]
    exact ⟨fun hc => absurd hc hcase, fun _ _ => rfl, fun hs => by simp at hs,
      fun hc => absurd hc hcase⟩
  · have hcase : pid? = none ∨ pid? = s.activeDragId := by
      rcases pid? with _ | pid
      · exact Or.inl rfl
      · right
        by_contra hne
        exact h1 ⟨rfl, fun he => hne he.symm⟩
    by_cases h2 : s.activeDragId = none ∧ s.activeDragProgress = 0
    · have heq : clearSheetStackDragProgress s pid? = (s, none) := by
        unfold clearSheetStackDragProgress
        rw [if_neg h1, if_pos h2]
      rw [heq]
      refine ⟨fun _ => ⟨h2.1, h2.2⟩, ?_, fun hs => by simp at hs,
        fun _ ps => effective_progress_of_no_owner ⟨ps, s.activeDragId, s.activeDragProgress⟩ h2.1⟩
      intro hne hne2
      rfl
    · have heq : clearSheetStackDragProgress s pid? =
          ((runSheetStackSync { s with activeDragId := none, activeDragProgress := 0 }).1,
            some (runSheetStackSync
              { s with activeDragId := none, activeDragProgress := 0 }).2) := by
        unfold clearSheetStackDragProgress
        rw [if_neg h1, if_neg h2]
      have hrec :
          (runSheetStackSync { s with activeDragId := none, activeDragProgress := 0 }).1.activeDragId
            = none ∧
          (runSheetStackSync
            { s with activeDragId := none, activeDragProgress := 0 }).1.activeDragProgress = 0 := by
        unfold runSheetStackSync syncSheetStackReset
        rw [if_pos (effective_progress_of_no_owner _ rfl)]
        exact ⟨rfl, rfl⟩
      rw [heq]
      refine ⟨fun _ => hrec, ?_, fun _ => ⟨not_and_or.mp h2, hrec⟩,
        fun _ ps => effective_progress_of_no_owner ⟨ps, _, _⟩ hrec.1⟩
      intro hne hne2
      rcases hcase with hn | he
      · exact absurd hn hne
      · exact absurd he hne2

/-- Witness for C8: clearing with the owning id at a concrete mid-drag record
leaves no residual ownership. -/
theorem c8_clear_drag_progress_witness :
    (clearSheetStackDragProgress ⟨[], some 7, 1 / 2⟩ (some 7)).1.activeDragId = none ∧
    (clearSheetStackDragProgress ⟨[], some 7, 1 / 2⟩ (some 7)).1.activeDragProgress = 0 :=
  (c8_clear_drag_progress ⟨[], some 7, 1 / 2⟩ (some 7)).1 (Or.inr rfl)

/-- Claim C9: the natural-height probe either takes the cheap path (live
scroll-extent above client extent: return it, no style write) or relaxes and
then restores every prior inline sizing property; in both cases the final
inline styles equal the initial ones. -/
theorem c9_measure_restores_inline_styles (el : ScrollContentModel) (contentWidth : ℤ) :
    (measureNaturalScrollSectionHeight el contentWidth).2.1 = el.styles ∧
    (max 0 (round el.clientHeight) < max 0 (round (el.scrollHeightAt el.styles)) →
      (measureNaturalScrollSectionHeight el contentWidth).1 =
        max 0 (round (el.scrollHeightAt el.styles)) ∧
      (measureNaturalScrollSectionHeight el contentWidth).2.2 = false) := by
  unfold measureNaturalScrollSectionHeight
  by_cases hcheap : max 0 (round el.clientHeight) < max 0 (round (el.scrollHeightAt el.styles))
  · simp [hcheap]
  · simp [hcheap]

/-- Witness for C9 at a concrete region on the cheap path (scroll-extent 100,
client extent 50). -/
theorem c9_measure_restores_inline_styles_witness :
    (measureNaturalScrollSectionHeight
      ⟨⟨"", "", "", "", "", ""⟩, fun _ => 100, 50⟩ 0).1 = 100 ∧
    (measureNaturalScrollSectionHeight
      ⟨⟨"", "", "", "", "", ""⟩, fun _ => 100, 50⟩ 0).2.1 = ⟨"", "", "", "", "", ""⟩ ∧
    (measureNaturalScrollSectionHeight
      ⟨⟨"", "", "", "", "", ""⟩, fun _ => 100, 50⟩ 0).2.2 = false := by
  have h := c9_measure_restores_inline_styles
    ⟨⟨"", "", "", "", "", ""⟩, fun _ => 100, 50⟩ 0
  have h2 := h.2 (by norm_num [round_eq])
  exact ⟨by rw [h2.1]; norm_num [round_eq], h.1, h2.2⟩

/-- Claim C10: the close button requests close with reason `close-button` and
succeeds on any open dismissible sheet regardless of top-most status, while
backdrop click and Escape are complete no-ops on a sheet that is not the
current top-most open instance. -/
theorem c10_close_button_vs_gated_dismissals (s : SheetState) (c : SheetStackState)
    (hopen : s.isOpen = true) (hdis : s.dismissible = true) :
    ((handleCloseButtonClick s).1.isOpen = false ∧
      (handleCloseButtonClick s).1.pendingReason = .closeButton ∧
      (handleCloseButtonClick s).2 = true) ∧
    (isTopMostOpenSheet s c = false →
      handleBackdropClick s c = (s, false) ∧ handleEscape s c .escape = (s, false)) := by
  constructor
  · unfold handleCloseButtonClick setOpen
    simp [hdis, hopen]
  · intro htop
    constructor
    · unfold handleBackdropClick
      simp [htop]
    · unfold handleEscape
      simp [htop]

/-- Witness for C10: with two open sheets (ids 1, 2; id 2 on top), close
button closes sheet 1 while backdrop and Escape leave it untouched. -/
theorem c10_close_button_vs_gated_dismissals_witness :
    (handleCloseButtonClick ⟨true, .api, true, true, true, 1, false, false, 0, 0, 0, none⟩).1.isOpen
      = false ∧
    handleBackdropClick ⟨true, .api, true, true, true, 1, false, false, 0, 0, 0, none⟩
        ⟨[⟨1, true, 1⟩, ⟨2, true, 2⟩], none, 0⟩ =
      (⟨true, .api, true, true, true, 1, false, false, 0, 0, 0, none⟩, false) ∧
    handleEscape ⟨true, .api, true, true, true, 1, false, false, 0, 0, 0, none⟩
        ⟨[⟨1, true, 1⟩, ⟨2, true, 2⟩], none, 0⟩ .escape =
      (⟨true, .api, true, true, true, 1, false, false, 0, 0, 0, none⟩, false) := by
  have h := c10_close_button_vs_gated_dismissals
    ⟨true, .api, true, true, true, 1, false, false, 0, 0, 0, none⟩
    ⟨[⟨1, true, 1⟩, ⟨2, true, 2⟩], none, 0⟩ rfl rfl
  have htop : isTopMostOpenSheet
      ⟨true, .api, true, true, true, 1, false, false, 0, 0, 0, none⟩
      ⟨[⟨1, true, 1⟩, ⟨2, true, 2⟩], none, 0⟩ = false := by
    unfold isTopMostOpenSheet isTopOpenSheetStackParticipant getTopOpenSheetStackParticipant
      getOpenSheetStackParticipants
    rw [List.mergeSort_of_sorted (by decide)]
    rfl
  have h2 := h.2 htop
  exact ⟨h.1.1, h2.1, h2.2⟩

/-- Helper: ids of the open-snapshot emissions are the open participants'
ids, in order. -/
theorem syncOpenEmissions_map_fst (s : SheetStackState) :
    (syncOpenEmissions s).map Prod.fst =
      (getOpenSheetStackParticipants s).map (fun p => p.id) := by
  unfold syncOpenEmissions
  rw [List.map_map]
  have h : ((getOpenSheetStackParticipants s).enum.map Prod.snd).map (fun p => p.id) =
      (getOpenSheetStackParticipants s).map (fun p => p.id) := by
    rw [List.enum_map_snd]
  rw [← h, List.map_map]
  rfl

/-- Helper: ids of the null emissions are the ids of the registered
participants filtered out of the open set, in registration order. -/
theorem syncNullEmissions_map_fst (s : SheetStackState) :
    (syncNullEmissions s).map Prod.fst =
      (s.participants.filter (fun p =>
        decide (¬ p.id ∈ (getOpenSheetStackParticipants s).map (fun q => q.id)))).map
        (fun p => p.id) := by
  unfold syncNullEmissions
  rw [List.map_map]
  rfl

/-- Helper: one open-snapshot emission per open participant. -/
theorem syncOpenEmissions_length (s : SheetStackState) :
    (syncOpenEmissions s).length = (getOpenSheetStackParticipants s).length := by
  unfold syncOpenEmissions
  rw [List.length_map, List.enum_length]

/-- Helper: the open-snapshot emission at position `i` carries the id of the
`i`-th open participant and the snapshot computed for position `i`. -/
theorem syncOpenEmissions_getElem? (s : SheetStackState) (i : ℕ)
    (hi : i < (getOpenSheetStackParticipants s).length) :
    (syncOpenEmissions s)[i]? =
      some (((getOpenSheetStackParticipants s).get ⟨i, hi⟩).id,
        some (stackSnapshotFor (getOpenSheetStackParticipants s).length i
          (effectiveStackDragProgress s) (decide (0 < effectiveStackDragProgress s)))) := by
  unfold syncOpenEmissions
  rw [List.getElem?_map, List.getElem?_eq_getElem (by rw [List.enum_length]; exact hi)]
  simp [List.getElem_enum]

/-- Helper: the open participants list is sorted by open-order ascending. -/
theorem getOpenSheetStackParticipants_sorted (s : SheetStackState) :
    List.Pairwise (fun a b => a.openOrder ≤ b.openOrder)
      (getOpenSheetStackParticipants s) := by
  unfold getOpenSheetStackParticipants
  exact List.Pairwise.imp (fun hab => of_decide_eq_true hab)
    (@List.sorted_mergeSort SheetStackParticipant
      (fun a b => decide (a.openOrder ≤ b.openOrder))
      (fun a b c hab hbc => decide_eq_true
        (le_trans (of_decide_eq_true hab) (of_decide_eq_true hbc)))
      (fun a b => by rcases le_total a.openOrder b.openOrder with h | h <;> simp [h])
      (s.participants.filter (fun p => p.isOpen)))

/-- Helper: with distinct participant ids, an id appears among the open
participants' ids exactly when that participant is open. -/
theorem mem_open_ids_iff (s : SheetStackState)
    (hids : (s.participants.map (fun p => p.id)).Nodup)
    (p : SheetStackParticipant) (hp : p ∈ s.participants) :
    p.id ∈ (getOpenSheetStackParticipants s).map (fun q => q.id) ↔ p.isOpen = true := by
  have hperm : (getOpenSheetStackParticipants s).Perm
      (s.participants.filter (fun q => q.isOpen)) := List.mergeSort_perm _ _
  constructor
  · intro hmem
    obtain ⟨q, hq, hqid⟩ := List.mem_map.mp hmem
    have hqf := hperm.mem_iff.mp hq
    have hq1 := (List.mem_filter.mp hqf).1
    have hq2 := (List.mem_filter.mp hqf).2
    have hqp : q = p := List.inj_on_of_nodup_map hids hq1 hp hqid
    rw [← hqp]
    exact hq2
  · intro hop
    have hmemf : p ∈ s.participants.filter (fun q => q.isOpen) :=
      List.mem_filter.mpr ⟨hp, hop⟩
    exact List.mem_map_of_mem _ (hperm.mem_iff.mpr hmemf)

/-- Claim C1: one `sync()` pass invokes each registered participant's
snapshot callback exactly once; the open participants, taken in ascending
open-order, receive snapshots with layer = position (0 = oldest),
depth-from-top = openCount − 1 − position, and isTop exactly at
depth-from-top 0 (so at most one emission is top-most); every
registered-but-not-open participant receives `null`. -/
theorem c1_sync_snapshot_delivery (s : SheetStackState)
    (hids : (s.participants.map (fun p => p.id)).Nodup) :
    List.Pairwise (fun a b => a.openOrder ≤ b.openOrder)
      (getOpenSheetStackParticipants s) ∧
    (∀ p ∈ s.participants,
      ((syncSheetStackEmissions s).map Prod.fst).count p.id = 1) ∧
    (∀ i (hi : i < (getOpenSheetStackParticipants s).length),
      ∃ snap, (syncSheetStackEmissions s)[i]? =
          some (((getOpenSheetStackParticipants s).get ⟨i, hi⟩).id, some snap) ∧
        snap.layer = i ∧
        snap.depthFromTop = (getOpenSheetStackParticipants s).length - 1 - i ∧
        (snap.isTop = true ↔ snap.depthFromTop = 0)) ∧
    (∀ p ∈ s.participants, p.isOpen = false →
      (p.id, none) ∈ syncSheetStackEmissions s) ∧
    (∀ i j (hi : i < (syncSheetStackEmissions s).length)
        (hj : j < (syncSheetStackEmissions s).length),
      ((syncSheetStackEmissions s).get ⟨i, hi⟩).2.elim False (fun sn => sn.isTop = true) →
      ((syncSheetStackEmissions s).get ⟨j, hj⟩).2.elim False (fun sn => sn.isTop = true) →
      i = j) := by
  have hperm : (getOpenSheetStackParticipants s).Perm
      (s.participants.filter (fun q => q.isOpen)) := List.mergeSort_perm _ _
  have hcount : ∀ p ∈ s.participants,
      ((syncSheetStackEmissions s).map Prod.fst).count p.id = 1 := by
    intro p hp
    have hdecomp : (syncSheetStackEmissions s).map Prod.fst =
        (syncOpenEmissions s).map Prod.fst ++ (syncNullEmissions s).map Prod.fst := by
      unfold syncSheetStackEmissions
      rw [List.map_append]
    rw [hdecomp, List.count_append, syncOpenEmissions_map_fst, syncNullEmissions_map_fst]
    have hone : (s.participants.map (fun q => q.id)).count p.id = 1 :=
      List.count_eq_one_of_mem hids (List.mem_map_of_mem _ hp)
    have hle1 : ((getOpenSheetStackParticipants s).map (fun q => q.id)).count p.id ≤ 1 := by
      rw [(hperm.map (fun q => q.id)).count_eq]
      exact le_trans
        (((List.filter_sublist s.participants).map (fun q => q.id)).count_le p.id)
        (le_of_eq hone)
    have hle2 : ((s.participants.filter (fun q =>
        decide (¬ q.id ∈ (getOpenSheetStackParticipants s).map (fun r => r.id)))).map
          (fun q => q.id)).count p.id ≤ 1 :=
      le_trans
        (((List.filter_sublist s.participants).map (fun q => q.id)).count_le p.id)
        (le_of_eq hone)
    by_cases hop : p.isOpen = true
    · have hmem : p.id ∈ (getOpenSheetStackParticipants s).map (fun q => q.id) :=
        (mem_open_ids_iff s hids p hp).mpr hop
      have hge1 : 1 ≤ ((getOpenSheetStackParticipants s).map (fun q => q.id)).count p.id :=
        List.count_pos_iff.mpr hmem
      have hz : ((s.participants.filter (fun q =>
          decide (¬ q.id ∈ (getOpenSheetStackParticipants s).map (fun r => r.id)))).map
            (fun q => q.id)).count p.id = 0 := by
        rw [List.count_eq_zero]
        intro hmem2
        obtain ⟨q, hq, hqid⟩ := List.mem_map.mp hmem2
        have hqg := (List.mem_filter.mp hq).2
        rw [decide_eq_true_eq] at hqg
        exact hqg (by rw [hqid]; exact hmem)
      omega
    · have hnot : ¬ p.id ∈ (getOpenSheetStackParticipants s).map (fun q => q.id) :=
        fun hmem => hop ((mem_open_ids_iff s hids p hp).mp hmem)
      have hz : ((getOpenSheetStackParticipants s).map (fun q => q.id)).count p.id = 0 :=
        List.count_eq_zero.mpr hnot
      have hmemf : p ∈ s.participants.filter (fun q =>
          decide (¬ q.id ∈ (getOpenSheetStackParticipants s).map (fun r => r.id))) :=
        List.mem_filter.mpr ⟨hp, decide_eq_true hnot⟩
      have hge2 : 1 ≤ ((s.participants.filter (fun q =>
          decide (¬ q.id ∈ (getOpenSheetStackParticipants s).map (fun r => r.id)))).map
            (fun q => q.id)).count p.id :=
        List.count_pos_iff.mpr (List.mem_map_of_mem _ hmemf)
      omega
  have hpos : ∀ i (hi : i < (getOpenSheetStackParticipants s).length),
      ∃ snap, (syncSheetStackEmissions s)[i]? =
          some (((getOpenSheetStackParticipants s).get ⟨i, hi⟩).id, some snap) ∧
        snap.layer = i ∧
        snap.depthFromTop = (getOpenSheetStackParticipants s).length - 1 - i ∧
        (snap.isTop = true ↔ snap.depthFromTop = 0) := by
    intro i hi
    have hi' : i < (syncOpenEmissions s).length := by
      rw [syncOpenEmissions_length]
      exact hi
    refine ⟨stackSnapshotFor (getOpenSheetStackParticipants s).length i
        (effectiveStackDragProgress s) (decide (0 < effectiveStackDragProgress s)),
      ?_, rfl, ?_, ?_⟩
    · unfold syncSheetStackEmissions
      rw [List.getElem?_append_left hi', syncOpenEmissions_getElem? s i hi]
    · show (getOpenSheetStackParticipants s).length - i - 1 =
        (getOpenSheetStackParticipants s).length - 1 - i
      omega
    · simp [stackSnapshotFor]
  have hnull : ∀ p ∈ s.participants, p.isOpen = false →
      (p.id, none) ∈ syncSheetStackEmissions s := by
    intro p hp hnop
    have hnot : ¬ p.id ∈ (getOpenSheetStackParticipants s).map (fun q => q.id) := by
      intro hmem
      have hcontra := (mem_open_ids_iff s hids p hp).mp hmem
      rw [hnop] at hcontra
      exact absurd hcontra Bool.false_ne_true
    have hmemf : p ∈ s.participants.filter (fun q =>
        decide (¬ q.id ∈ (getOpenSheetStackParticipants s).map (fun r => r.id))) :=
      List.mem_filter.mpr ⟨hp, decide_eq_true hnot⟩
    unfold syncSheetStackEmissions
    exact List.mem_append_right _ (List.mem_map.mpr ⟨p, hmemf, rfl⟩)
  have hkey : ∀ k (hk : k < (syncSheetStackEmissions s).length),
      ((syncSheetStackEmissions s).get ⟨k, hk⟩).2.elim False (fun sn => sn.isTop = true) →
      k + 1 = (getOpenSheetStackParticipants s).length := by
    intro k hk htop
    rw [List.get_eq_getElem] at htop
    by_cases hklt : k < (syncOpenEmissions s).length
    · have hkopen : k < (getOpenSheetStackParticipants s).length := by
        rw [← syncOpenEmissions_length s]
        exact hklt
      have h1 : (syncSheetStackEmissions s)[k] = (syncOpenEmissions s)[k] := by
        unfold syncSheetStackEmissions
        exact List.getElem_append_left hklt
      have h2 : (syncOpenEmissions s)[k] =
          (((getOpenSheetStackParticipants s).get ⟨k, hkopen⟩).id,
            some (stackSnapshotFor (getOpenSheetStackParticipants s).length k
              (effectiveStackDragProgress s)
              (decide (0 < effectiveStackDragProgress s)))) := by
        have h3 := List.getElem?_eq_getElem hklt
        rw [syncOpenEmissions_getElem? s k hkopen] at h3
        exact (Option.some.inj h3).symm
      rw [h1, h2] at htop
      simp [stackSnapshotFor] at htop
      omega
    · have hge : (syncOpenEmissions s).length ≤ k := le_of_not_lt hklt
      have hklen : k - (syncOpenEmissions s).length < (syncNullEmissions s).length := by
        have hk2 := hk
        unfold syncSheetStackEmissions at hk2
        rw [List.length_append] at hk2
        omega
      have h1 : (syncSheetStackEmissions s)[k] =
          (syncNullEmissions s).get ⟨k - (syncOpenEmissions s).length, hklen⟩ := by
        unfold syncSheetStackEmissions
        exact List.getElem_append_right hge
      have hmem2 : (syncNullEmissions s).get ⟨k - (syncOpenEmissions s).length, hklen⟩ ∈
          syncNullEmissions s := by
        rw [List.get_eq_getElem]
        exact List.getElem_mem _
      rw [h1] at htop
      have hsnd : ∀ e ∈ syncNullEmissions s, e.2 = none := by
        intro e he
        unfold syncNullEmissions at he
        obtain ⟨q, hq, hqe⟩ := List.mem_map.mp he
        rw [← hqe]
      rw [hsnd _ hmem2] at htop
      simp at htop
  refine ⟨getOpenSheetStackParticipants_sorted s, hcount, hpos, hnull, ?_⟩
  intro i j hi hj hti htj
  have h1 := hkey i hi hti
  have h2 := hkey j hj htj
  omega

/-- Witness for C1 at a concrete registry (ids 1, 3 open in order 2 then 5;
id 2 registered but closed): id 3 receives exactly one callback and id 2
receives `null`. -/
theorem c1_sync_snapshot_delivery_witness :
    (([⟨1, true, 2⟩, ⟨2, false, 0⟩, ⟨3, true, 5⟩] : List SheetStackParticipant).map
      (fun p => p.id)).Nodup ∧
    ((syncSheetStackEmissions ⟨[⟨1, true, 2⟩, ⟨2, false, 0⟩, ⟨3, true, 5⟩], none, 0⟩).map
      Prod.fst).count 3 = 1 ∧
    (2, none) ∈ syncSheetStackEmissions ⟨[⟨1, true, 2⟩, ⟨2, false, 0⟩, ⟨3, true, 5⟩], none, 0⟩ := by
  refine ⟨by decide, ?_, ?_⟩
  · exact (c1_sync_snapshot_delivery
      ⟨[⟨1, true, 2⟩, ⟨2, false, 0⟩, ⟨3, true, 5⟩], none, 0⟩ (by decide)).2.1
      ⟨3, true, 5⟩ (by decide)
  · exact (c1_sync_snapshot_delivery
      ⟨[⟨1, true, 2⟩, ⟨2, false, 0⟩, ⟨3, true, 5⟩], none, 0⟩ (by decide)).2.2.2.1
      ⟨2, false, 0⟩ (by decide) rfl

end VanSheet
